import Mathlib

/-!
Verification model of `knockout_values.py`.

The single source file defines one function,
`knockout_values(df, missing_pct, na_value, exclude)`, which copies a pandas
DataFrame, knocks out a sampled subset of cells per column (replacing them by a
per-column sentinel value) and returns the masked copy together with a boolean
mask.  This file embeds that function shallowly: tables are lists of named,
dtype-tagged columns of symbolic cell values, rates are exact fractions, the
random source is an explicit oracle parameter, and Python exceptions become an
`Except` error type.
-/

set_option autoImplicit false

namespace KnockoutModel

/-- Exact fraction used to model Python float arithmetic on rates.  The
denominator is kept as a plain `Nat` and no gcd normalisation is performed, so
every operation is kernel-computable.  All fractions appearing in the source's
computations have positive denominators. -/
structure PyQ where
  num : Int
  den : Nat
  deriving DecidableEq, Repr

/-- Comparison `a <= b` on fractions (cross multiplication; valid for positive
denominators, which is the only case the model constructs). -/
def pyq_le (a b : PyQ) : Bool :=
  decide (a.num * (b.den : Int) ≤ b.num * (a.den : Int))

/-- A Python float is either NaN or a finite value. -/
inductive PyFloat where
  | nan
  | val (q : PyQ)
  deriving DecidableEq, Repr

/-- The universe of Python values the source manipulates: `None`, ints,
floats, and strings. -/
inductive PyVal where
  | none
  | int (i : Int)
  | float (f : PyFloat)
  | str (s : String)
  deriving DecidableEq, Repr

/-- Python exceptions raised by the source: `AssertionError` (the spec's
`InvalidArgument`) carrying its message, and the `TypeError` / `ValueError`
that built-ins raise on ill-typed or ill-valued operands. -/
inductive KErr where
  | invalidArgument (msg : String)
  | typeError
  | valueError
  deriving DecidableEq, Repr

/-- One DataFrame column: its name, its dtype tag (the string form of the
pandas dtype, e.g. "int64", "float64", "object"), and its cells. -/
structure Column where
  name : String
  dtype : String
  values : List PyVal
  deriving DecidableEq, Repr

/-- A DataFrame: an ordered list of columns. -/
structure DataFrame where
  cols : List Column
  deriving DecidableEq, Repr

/-- `df.shape[0]`: the row count (length of the first column; a well-formed
frame has all columns of this length). -/
def n_rows (df : DataFrame) : Nat :=
  match df.cols with
  | [] => 0
  | c :: _ => c.values.length

/-- Well-formedness of a DataFrame: rectangular (every column has `n_rows`
cells) with pairwise distinct column names, as pandas column indexing
assumes. -/
def DataFrame.wf (df : DataFrame) : Prop :=
  (∀ c ∈ df.cols, c.values.length = n_rows df) ∧
    (df.cols.map Column.name).Nodup

instance (df : DataFrame) : Decidable df.wf := by
  unfold DataFrame.wf; infer_instance

/-- Python `dict` lookup on an association list (first match wins; Python
dicts have unique keys). -/
def dict_get {α : Type} (k : String) : List (String × α) → Option α
  | [] => Option.none
  | (k₀, v) :: rest => if k = k₀ then some v else dict_get k rest

/-- The column of `df` with the given name, if any (`df[name]`). -/
def DataFrame.col (df : DataFrame) (name : String) : Option Column :=
  df.cols.find? (fun c => decide (c.name = name))

/-- `cs` starts with `ps` (character-list core of `str.startswith`). -/
def list_startswith : List Char → List Char → Bool
  | _, [] => true
  | [], _ :: _ => false
  | c :: cs, p :: ps => decide (c = p) && list_startswith cs ps

/-- Python `s.startswith(pre)`. -/
def str_startswith (s pre : String) : Bool :=
  list_startswith s.data pre.data

/-- Source line 24: `float_type = lambda x: str(x).startswith('float') or
str(x).startswith('int')`, applied to dtype tags. -/
def float_type (x : String) : Bool :=
  str_startswith x (r"float") || str_startswith x (r"int")

/-- Source line 25: `int_type = lambda x: str(x).startswith('int')`. -/
def int_type (x : String) : Bool :=
  str_startswith x (r"int")

/-- Source line 26: `float_like = lambda x: isinstance(x, (np.floating, float,
np.integer, int)) or str(x).startswith('float') or str(x).startswith('int')`,
applied to runtime values.  `str(x)` of an int or float never starts with
"float"/"int" spelled out, so only the string case consults the text. -/
def float_like (x : PyVal) : Bool :=
  match x with
  | .int _ => true
  | .float _ => true
  | .str s => str_startswith s (r"float") || str_startswith s (r"int")
  | .none => false

/-- Source line 28: `default_na = lambda x: -1 if int_type(x) else (np.nan if
float_type(x) else 'NA')`, applied to a column's dtype tag. -/
def default_na (x : String) : PyVal :=
  if int_type x then .int (-1)
  else if float_type x then .float .nan
  else .str (r"NA")

/-- Source line 29 applied to an already-converted float:
`is_pct = lambda x: x >= 0.0 and x <= 1.0` (NaN compares False). -/
def is_pct (f : PyFloat) : Bool :=
  match f with
  | .nan => false
  | .val q => pyq_le ⟨0, 1⟩ q && pyq_le q ⟨1, 1⟩

/-- Source line 29 applied to a raw value (the bare-scalar path evaluates
`is_pct(missing_pct)` before converting): comparing a string (or `None`)
against a float raises `TypeError` in Python 3. -/
def is_pct_val (x : PyVal) : Except KErr Bool :=
  match x with
  | .int i => .ok (decide (0 ≤ i) && decide (i ≤ 1))
  | .float f => .ok (is_pct f)
  | .str _ => .error .typeError
  | .none => .error .typeError

/-- Python `float(x)`.  Only values passing `float_like` reach this call in
the source; a `float_like` string starts with "float" or "int" and is never a
valid float literal, so the string case raises `ValueError`. -/
def py_float (x : PyVal) : Except KErr PyFloat :=
  match x with
  | .int i => .ok (.val ⟨i, 1⟩)
  | .float f => .ok f
  | .str _ => .error .valueError
  | .none => .error .typeError

/-- The `missing_pct` argument: either a single Python value (`None`, a
number, or junk) or a dict of per-column entries. -/
inductive MissingSpec where
  | val (x : PyVal)
  | dict (m : List (String × PyVal))
  deriving DecidableEq, Repr

/-- The `na_value` argument: a dict, or any other single value (including
`None`). -/
inductive NaSpec where
  | val (x : PyVal)
  | dict (m : List (String × PyVal))
  deriving DecidableEq, Repr

/-- The `exclude` argument: `None`, a single column name, or a collection of
names. -/
inductive ExcludeSpec where
  | noneEx
  | one (s : String)
  | many (l : List String)
  deriving DecidableEq, Repr

/-- Source line 30: the assertion `missing_pct is None or
float_like(missing_pct) or isinstance(missing_pct, dict)`. -/
def ms_ok (ms : MissingSpec) : Bool :=
  match ms with
  | .dict _ => true
  | .val .none => true
  | .val x => float_like x

/-- Source line 32: normalise `exclude` to a set of names. -/
def exclude_set (ex : ExcludeSpec) : List String :=
  match ex with
  | .noneEx => []
  | .one s => [s]
  | .many l => l

/-- Source lines 34-39: the effective sentinel for one column.  The code
builds `_na_value = {c: default_na(types[c]) for c in types}` and then, when
`na_value` is a dict, overrides entries whose key occurs in it — the keys it
compares against are COLUMN NAMES `c`, not type categories. -/
def resolve_na_col (na : NaSpec) (c : Column) : PyVal :=
  match na with
  | .dict m =>
    match dict_get c.name m with
    | some v => v
    | Option.none => default_na c.dtype
  | .val _ => default_na c.dtype

/-- Source lines 48-51: one iteration of the dict branch.  A `float_like`
value is converted by `float(...)` (which raises `ValueError` on the
"float*"/"int*" strings that pass `float_like`) and then range-checked by the
assertion; any other value — `None`, but also arbitrary junk such as a
non-numeric string — is stored UNCHECKED. -/
def resolve_entry (v : PyVal) : Except KErr PyVal :=
  if float_like v then
    match py_float v with
    | .error e => .error e
    | .ok f =>
      if is_pct f then .ok (.float f)
      else .error (.invalidArgument (r"missing_pct must be in range [0,1] if numeric."))
  else .ok v

/-- Source lines 46-51: validate/convert every dict entry in order, stopping
at the first raised exception. -/
def resolve_dict : List (String × PyVal) → Except KErr (List (String × PyVal))
  | [] => .ok []
  | (c, v) :: rest =>
    match resolve_entry v with
    | .error e => .error e
    | .ok v' =>
      match resolve_dict rest with
      | .error e => .error e
      | .ok rest' => .ok ((c, v') :: rest')

/-- Source lines 41-52: build `_missing_pct`.  The bare-scalar branch asserts
`is_pct(missing_pct)` on the RAW value (line 43) before converting (line 44)
and assigns the rate to every column; the dict branch validates each entry;
otherwise (only `None` survives the line-30 assertion) every column keeps
`None`.  The result is the entry list a column's rate is looked up in
(missing columns read as `None`, see `pct_for`). -/
def resolve_pct (df : DataFrame) (ms : MissingSpec) : Except KErr (List (String × PyVal)) :=
  match ms with
  | .val x =>
    if float_like x then
      match is_pct_val x with
      | .error e => .error e
      | .ok ok =>
        if ok then
          match py_float x with
          | .error e => .error e
          | .ok f => .ok (df.cols.map (fun c => (c.name, PyVal.float f)))
        else .error (.invalidArgument (r"missing_pct must be in range [0,1] if numeric."))
    else .ok (df.cols.map (fun c => (c.name, PyVal.none)))
  | .dict m => resolve_dict m

/-- Source lines 30 and 41-52 together: everything in the call that can raise
`AssertionError` (`InvalidArgument`) runs here, before the copy at line 54
and the per-column loop at lines 57-64. -/
def validate_missing (df : DataFrame) (ms : MissingSpec) : Except KErr (List (String × PyVal)) :=
  if ms_ok ms then resolve_pct df ms
  else .error (.invalidArgument (r"missing_pct must be None, float, or dict."))

/-- Source line 60: `pct = missing_pct[c]`.  After line 52, `_missing_pct`
maps every column either to an entry written by lines 42-51 or to the `None`
it was initialised with at line 41. -/
def pct_for (pcts : List (String × PyVal)) (name : String) : PyVal :=
  match dict_get name pcts with
  | some v => v
  | Option.none => PyVal.none

/-- `n * q` for a row count and a rate fraction. -/
def natMul (n : Nat) (q : PyQ) : PyQ :=
  ⟨(n : Int) * q.num, q.den⟩

/-- `np.round` on an exact fraction: round half to even (banker's rounding),
which is what both Python's `round` and `np.round` implement.
`r2 = 2 * (num - floor * den)` is twice the fractional part scaled by the
denominator. -/
def roundHalfEven (q : PyQ) : Int :=
  let f := q.num.fdiv (q.den : Int)
  let r2 := 2 * (q.num - f * (q.den : Int))
  if r2 < (q.den : Int) then f
  else if (q.den : Int) < r2 then f + 1
  else if f % 2 = 0 then f else f + 1

/-- Source line 62, `int(np.round(n_rows*pct))` on the stored per-column
entry.  Stored entries are validated floats or `None` (guarded at line 61),
but the dict branch can also store junk: `n_rows * <str>` is Python string
repetition and `np.round` of a string raises `TypeError`; `np.round(nan)` is
NaN and `int(nan)` raises `ValueError`. -/
def py_round_mult (n : Nat) (v : PyVal) : Except KErr Int :=
  match v with
  | .int i => .ok ((n : Int) * i)
  | .float (.val q) => .ok (roundHalfEven (natMul n q))
  | .float .nan => .error .valueError
  | .str _ => .error .typeError
  | .none => .error .typeError

/-- The random source `np.random.choice(n, k, replace=False)` is modelled as
an oracle `rng n k` giving the chosen row indices.  `ValidRng` states what
numpy guarantees whenever `k ≤ n`: `k` distinct indices below `n`. -/
def ValidRng (rng : Nat → Nat → List Nat) : Prop :=
  ∀ n k, k ≤ n →
    (rng n k).length = k ∧ (rng n k).Nodup ∧ ∀ i ∈ rng n k, i < n

/-- A concrete valid sampler: take the first `k` row indices. -/
def pickFirst (_ : Nat) (k : Nat) : List Nat :=
  List.range k

/-- Source line 64: `masked_df[c].where(~mask[c], other=na)` — keep the cell
where the mask is `false`, put the sentinel where it is `true` (pandas aligns
by position; `zip` semantics, the lists have equal length in a well-formed
frame). -/
def apply_mask : List PyVal → List Bool → PyVal → List PyVal
  | [], _, _ => []
  | _ :: _, [], _ => []
  | v :: vs, b :: bs, na => (if b then na else v) :: apply_mask vs bs na

/-- Source lines 57-64, one loop iteration for column `c` (with its exclusion
flag, stored rate and resolved sentinel already looked up): excluded columns
and columns whose rate is `None` are skipped, leaving the copied values and
an all-`False` mask column; otherwise `k = int(np.round(n*pct))` indices are
drawn (`np.random.choice` raises `ValueError` unless `0 ≤ k ≤ n`), the mask
is set at those indices and the cells rewritten by `where`. -/
def knock_col (rng : Nat → Nat → List Nat) (n : Nat) (excluded : Bool)
    (pct na : PyVal) (c : Column) : Except KErr (Column × List Bool) :=
  if excluded then .ok (c, List.replicate n false)
  else if pct = PyVal.none then .ok (c, List.replicate n false)
  else
    match py_round_mult n pct with
    | .error e => .error e
    | .ok k =>
      if 0 ≤ k ∧ k ≤ (n : Int) then
        let idx := rng n k.toNat
        let mcol := (List.range n).map (fun i => decide (i ∈ idx))
        .ok ({ c with values := apply_mask c.values mcol na }, mcol)
      else .error .valueError

/-- Source lines 57-64: the loop over `mask.columns` (the input's columns, in
order), stopping at the first raised exception. -/
def knock_cols (rng : Nat → Nat → List Nat) (n : Nat) (ex : List String)
    (pcts : List (String × PyVal)) (na : NaSpec) :
    List Column → Except KErr (List (Column × List Bool))
  | [] => .ok []
  | c :: rest =>
    match knock_col rng n (decide (c.name ∈ ex)) (pct_for pcts c.name)
      (resolve_na_col na c) c with
    | .error e => .error e
    | .ok r =>
      match knock_cols rng n ex pcts na rest with
      | .error e => .error e
      | .ok rs => .ok (r :: rs)

/-- The whole of `knockout_values` (source lines 5-65): assert the shape of
`missing_pct` (line 30), resolve sentinels and rates (lines 34-52), then copy
the frame, build the all-`False` mask and run the per-column loop (lines
54-64), returning `(masked_df, mask)`. -/
def knockout (rng : Nat → Nat → List Nat) (df : DataFrame) (missing_pct : MissingSpec)
    (na_value : NaSpec) (exclude : ExcludeSpec) :
    Except KErr (DataFrame × List (String × List Bool)) :=
  match validate_missing df missing_pct with
  | .error e => .error e
  | .ok pcts =>
    match knock_cols rng (n_rows df) (exclude_set exclude) pcts na_value df.cols with
    | .error e => .error e
    | .ok res => .ok (⟨res.map Prod.fst⟩, res.map (fun r => (r.1.name, r.2)))

/-- The mask produced when nothing is knocked out: every column all `False`. -/
def allFalseMask (df : DataFrame) : List (String × List Bool) :=
  df.cols.map (fun c => (c.name, List.replicate (n_rows df) false))

/-- The sentinel resolution the SPEC describes (§4.1 steps 1 and 5), for
comparison with the source's `resolve_na_col`: classify the column's dtype
into the category "integer" / "floating" / "string", then use the caller's
override for that CATEGORY if present, else the category default. -/
def sentinel_per_spec (na : NaSpec) (dtype : String) : PyVal :=
  let category : String :=
    if int_type dtype then r"integer"
    else if float_type dtype then r"floating"
    else r"string"
  match na with
  | .dict m =>
    match dict_get category m with
    | some v => v
    | Option.none => default_na dtype
  | .val _ => default_na dtype

/-! ### Helper lemmas -/

/-- `pickFirst` satisfies the sampling contract. -/
theorem pickFirst_valid : ValidRng pickFirst := by
  intro n k hk
  refine ⟨List.length_range k, List.nodup_range k, ?_⟩
  intro i hi
  exact lt_of_lt_of_le (List.mem_range.mp hi) hk

/-- Marking the distinct indices `idx` (all below `n`) in an all-`False` row
of length `n` yields exactly `idx.length` `True` cells. -/
theorem count_true_select (n : Nat) (idx : List Nat) (hn : idx.Nodup)
    (hb : ∀ i ∈ idx, i < n) :
    ((List.range n).map (fun i => decide (i ∈ idx))).count true = idx.length := by
  have hperm : List.Perm ((List.range n).filter (fun i => decide (i ∈ idx))) idx := by
    rw [List.perm_ext_iff_of_nodup (List.Nodup.filter _ (List.nodup_range n)) hn]
    intro a
    simp only [List.mem_filter, List.mem_range, decide_eq_true_eq]
    exact ⟨fun h => h.2, fun h => ⟨hb a h, h⟩⟩
  calc ((List.range n).map (fun i => decide (i ∈ idx))).count true
      = ((List.range n).map (fun i => decide (i ∈ idx))).countP (fun b => b == true) := rfl
    _ = (List.range n).countP (fun i => decide (i ∈ idx) == true) := by
        rw [List.countP_map]; rfl
    _ = (List.range n).countP (fun i => decide (i ∈ idx)) := by simp
    _ = ((List.range n).filter (fun i => decide (i ∈ idx))).length := by
        rw [List.countP_eq_length_filter]
    _ = idx.length := hperm.length_eq

theorem count_true_replicate_false (n : Nat) :
    (List.replicate n false).count true = 0 := by
  simp [List.count_replicate]

theorem getD_replicate_false (n i : Nat) :
    (List.replicate n false).getD i false = false := by
  induction n generalizing i with
  | zero => rfl
  | succ m ih => cases i with
    | zero => rfl
    | succ j => exact ih j

theorem getD_map_range {α : Type} (f : Nat → α) (n i : Nat) (d : α) (hi : i < n) :
    ((List.range n).map f).getD i d = f i := by
  rw [List.getD_eq_getElem?_getD, List.getElem?_map, List.getElem?_range hi]
  rfl

theorem apply_mask_getD (na d : PyVal) :
    ∀ (vs : List PyVal) (bs : List Bool) (i : Nat), i < vs.length → i < bs.length →
      (apply_mask vs bs na).getD i d = if bs.getD i false then na else vs.getD i d
  | [], _, i, hv, _ => absurd hv (by simp)
  | _ :: _, [], i, _, hb => absurd hb (by simp)
  | v :: vs, b :: bs, 0, _, _ => rfl
  | v :: vs, b :: bs, i + 1, hv, hb =>
    apply_mask_getD na d vs bs i (Nat.lt_of_succ_lt_succ hv) (Nat.lt_of_succ_lt_succ hb)

theorem apply_mask_length (na : PyVal) :
    ∀ (vs : List PyVal) (bs : List Bool),
      (apply_mask vs bs na).length = min vs.length bs.length
  | [], _ => by simp [apply_mask]
  | _ :: _, [] => by simp [apply_mask]
  | v :: vs, b :: bs => by
    simp [apply_mask, apply_mask_length na vs bs, Nat.succ_min_succ]

/-- `where` with an all-`False` mask covering every cell changes nothing. -/
theorem apply_mask_all_false (na : PyVal) :
    ∀ (vs : List PyVal) (bs : List Bool), (∀ b ∈ bs, b = false) →
      vs.length ≤ bs.length → apply_mask vs bs na = vs
  | [], _, _, _ => rfl
  | _ :: _, [], _, hl => absurd hl (by simp)
  | v :: vs, b :: bs, hf, hl => by
    have hb : b = false := hf b (by simp)
    have ih := apply_mask_all_false na vs bs (fun x hx => hf x (by simp [hx]))
      (Nat.le_of_succ_le_succ hl)
    simp [apply_mask, hb, ih]

theorem dict_get_eq_none_iff {α : Type} (k : String) :
    ∀ l : List (String × α), dict_get k l = Option.none ↔ k ∉ l.map Prod.fst
  | [] => by simp [dict_get]
  | (k₀, v) :: rest => by
    by_cases hk : k = k₀
    · simp [dict_get, hk]
    · simp [dict_get, hk, dict_get_eq_none_iff k rest]

/-- Looking up any present column in a constant-valued per-column table. -/
theorem dict_get_map_const (v : PyVal) (c : Column) :
    ∀ cols : List Column, c ∈ cols →
      dict_get c.name (cols.map (fun c' => (c'.name, v))) = some v
  | [], h => absurd h (by simp)
  | c₀ :: rest, h => by
    by_cases hn : c.name = c₀.name
    · simp [dict_get, hn]
    · have hc : c ∈ rest := by
        rcases List.mem_cons.mp h with h₀ | h₀
        · exact absurd (h₀ ▸ rfl) hn
        · exact h₀
      simp [dict_get, hn, dict_get_map_const v c rest hc]

theorem pct_for_map_const (v : PyVal) (c : Column) (cols : List Column)
    (hc : c ∈ cols) :
    pct_for (cols.map (fun c' => (c'.name, v))) c.name = v := by
  simp [pct_for, dict_get_map_const v c cols hc]

/-- Validating a dict rewrites values but keeps the key sequence. -/
theorem resolve_dict_keys :
    ∀ {m m' : List (String × PyVal)}, resolve_dict m = .ok m' →
      m'.map Prod.fst = m.map Prod.fst := by
  intro m
  induction m with
  | nil => intro m' h; cases h; rfl
  | cons p rest ih =>
    intro m' h
    obtain ⟨c, v⟩ := p
    simp only [resolve_dict] at h
    cases hv : resolve_entry v with
    | error e => rw [hv] at h; cases h
    | ok v' =>
      rw [hv] at h
      cases hr : resolve_dict rest with
      | error e => rw [hr] at h; cases h
      | ok rest' =>
        rw [hr] at h
        cases h
        simp [ih hr]

theorem knock_col_excluded (rng : Nat → Nat → List Nat) (n : Nat) (pct na : PyVal)
    (c : Column) : knock_col rng n true pct na c = .ok (c, List.replicate n false) := rfl

theorem knock_col_skip (rng : Nat → Nat → List Nat) (n : Nat) (exb : Bool) (na : PyVal)
    (c : Column) : knock_col rng n exb PyVal.none na c = .ok (c, List.replicate n false) := by
  cases exb <;> rfl

/-- Complete case analysis of one successful loop iteration. -/
theorem knock_col_cases {rng : Nat → Nat → List Nat} {n : Nat} {exb : Bool}
    {pct na : PyVal} {c : Column} {r : Column × List Bool}
    (h : knock_col rng n exb pct na c = .ok r) :
    (exb = true ∧ r = (c, List.replicate n false))
    ∨ (exb = false ∧ pct = PyVal.none ∧ r = (c, List.replicate n false))
    ∨ (exb = false ∧ pct ≠ PyVal.none ∧ ∃ k, py_round_mult n pct = .ok k ∧
        (0 ≤ k ∧ k ≤ (n : Int)) ∧
        r = ({ c with values :=
                apply_mask c.values ((List.range n).map (fun i => decide (i ∈ rng n k.toNat))) na },
             (List.range n).map (fun i => decide (i ∈ rng n k.toNat)))) := by
  cases exb with
  | true =>
    rw [knock_col_excluded] at h
    cases h
    exact Or.inl ⟨rfl, rfl⟩
  | false =>
    by_cases hp : pct = PyVal.none
    · subst hp
      rw [knock_col_skip] at h
      cases h
      exact Or.inr (Or.inl ⟨rfl, rfl, rfl⟩)
    · right; right
      refine ⟨rfl, hp, ?_⟩
      unfold knock_col at h
      rw [if_neg (by simp), if_neg hp] at h
      cases hk : py_round_mult n pct with
      | error e => rw [hk] at h; cases h
      | ok k =>
        rw [hk] at h
        dsimp only at h
        by_cases hg : 0 ≤ k ∧ k ≤ (n : Int)
        · rw [if_pos hg] at h
          cases h
          exact ⟨k, rfl, hg, rfl⟩
        · rw [if_neg hg] at h; cases h

/-- A successful iteration keeps the column's name and dtype and produces a
mask row of length `n` (and cell list of length `n` when the input column had
`n` cells). -/
theorem knock_col_shape {rng : Nat → Nat → List Nat} {n : Nat} {exb : Bool}
    {pct na : PyVal} {c : Column} {r : Column × List Bool}
    (h : knock_col rng n exb pct na c = .ok r) :
    r.1.name = c.name ∧ r.1.dtype = c.dtype ∧ r.2.length = n ∧
      (c.values.length = n → r.1.values.length = n) := by
  rcases knock_col_cases h with ⟨_, hr⟩ | ⟨_, _, hr⟩ | ⟨_, _, k, _, _, hr⟩ <;> subst hr
  · exact ⟨rfl, rfl, List.length_replicate n false, fun hl => hl⟩
  · exact ⟨rfl, rfl, List.length_replicate n false, fun hl => hl⟩
  · refine ⟨rfl, rfl, by simp, fun hl => ?_⟩
    simp [apply_mask_length, hl]

/-- The `True` count of the mask row built by an active (non-excluded, rated)
iteration is exactly `int(np.round(n*pct))`. -/
theorem knock_col_count {rng : Nat → Nat → List Nat} {n : Nat} {exb : Bool}
    {pct na : PyVal} {c : Column} {r : Column × List Bool} {q : PyQ}
    (hrng : ValidRng rng) (h : knock_col rng n exb pct na c = .ok r)
    (hexb : exb = false) (hpct : pct = .float (.val q)) :
    r.2.count true = (roundHalfEven (natMul n q)).toNat := by
  rcases knock_col_cases h with ⟨he, _⟩ | ⟨_, hp, _⟩ | ⟨_, _, k, hk, hg, hr⟩
  · simp [hexb] at he
  · rw [hpct] at hp; cases hp
  · subst hpct
    have hk' : k = roundHalfEven (natMul n q) := by
      simp only [py_round_mult, Except.ok.injEq] at hk
      exact hk.symm
    subst hk'
    subst hr
    have hle : (roundHalfEven (natMul n q)).toNat ≤ n := Int.toNat_le.mpr hg.2
    obtain ⟨hlen, hnd, hbd⟩ := hrng n _ hle
    simpa [count_true_select n _ hnd hbd] using hlen

/-- Cell-level description of one successful iteration: a `True` mask cell
holds the sentinel, a `False` one the original value. -/
theorem knock_col_cell {rng : Nat → Nat → List Nat} {n : Nat} {exb : Bool}
    {pct na : PyVal} {c : Column} {r : Column × List Bool}
    (h : knock_col rng n exb pct na c = .ok r) (hlen : c.values.length = n)
    {i : Nat} (hi : i < n) :
    r.1.values.getD i PyVal.none =
      (if r.2.getD i false then na else c.values.getD i PyVal.none) := by
  rcases knock_col_cases h with ⟨_, hr⟩ | ⟨_, _, hr⟩ | ⟨_, _, k, _, _, hr⟩ <;> subst hr
  · simp [getD_replicate_false]
  · simp [getD_replicate_false]
  · dsimp only
    have h1 : i < c.values.length := by rw [hlen]; exact hi
    have h2 : i < ((List.range n).map (fun j => decide (j ∈ rng n k.toNat))).length := by
      simpa using hi
    rw [apply_mask_getD _ _ _ _ _ h1 h2]

/-- A rate that rounds to zero knockouts leaves the column untouched with an
all-`False` mask row. -/
theorem knock_col_rate_zero {rng : Nat → Nat → List Nat} {n : Nat} {exb : Bool}
    {na : PyVal} {c : Column} {q : PyQ}
    (hrng : ValidRng rng) (hlen : c.values.length = n)
    (hzero : roundHalfEven (natMul n q) = 0) :
    knock_col rng n exb (.float (.val q)) na c = .ok (c, List.replicate n false) := by
  cases exb with
  | true => exact knock_col_excluded rng n _ na c
  | false =>
    have h0 : py_round_mult n (.float (.val q)) = .ok (0 : Int) := by
      simp [py_round_mult, hzero]
    have hidx : rng n ((0 : Int).toNat) = [] := by
      have := (hrng n 0 (Nat.zero_le n)).1
      exact List.length_eq_zero.mp (by simpa using this)
    unfold knock_col
    rw [if_neg (by simp), if_neg (by simp), h0]
    dsimp only
    rw [if_pos ⟨le_refl 0, Int.ofNat_nonneg n⟩]
    rw [hidx]
    have hmap : (List.range n).map (fun i => decide (i ∈ ([] : List Nat)))
        = List.replicate n false := by
      simp [List.eq_replicate_iff]
    rw [hmap]
    rw [apply_mask_all_false na c.values (List.replicate n false)
      (fun b hb => List.eq_of_mem_replicate hb) (by simp [hlen])]

/-- A successful run of the per-column loop succeeds column by column, in
order. -/
theorem knock_cols_forall2 {rng : Nat → Nat → List Nat} {n : Nat} {ex : List String}
    {pcts : List (String × PyVal)} {na : NaSpec} :
    ∀ {cols : List Column} {res : List (Column × List Bool)},
      knock_cols rng n ex pcts na cols = .ok res →
      List.Forall₂ (fun c r =>
        knock_col rng n (decide (c.name ∈ ex)) (pct_for pcts c.name) (resolve_na_col na c) c
          = .ok r) cols res
  | [], _, h => by cases h; exact List.Forall₂.nil
  | c :: rest, res, h => by
    simp only [knock_cols] at h
    cases hc : knock_col rng n (decide (c.name ∈ ex)) (pct_for pcts c.name)
        (resolve_na_col na c) c with
    | error e => rw [hc] at h; cases h
    | ok r =>
      rw [hc] at h
      dsimp only at h
      cases hr : knock_cols rng n ex pcts na rest with
      | error e => rw [hr] at h; cases h
      | ok rs =>
        rw [hr] at h
        dsimp only at h
        cases h
        exact List.Forall₂.cons hc (knock_cols_forall2 hr)

/-- From a columnwise relation and distinct column names, extract the unique
result row a column maps to, both in the mask and in the masked frame. -/
theorem forall2_ok_lookup {R : Column → (Column × List Bool) → Prop}
    (hname : ∀ c r, R c r → r.1.name = c.name) {c : Column} :
    ∀ {cols : List Column} {res : List (Column × List Bool)},
      List.Forall₂ R cols res →
      (cols.map Column.name).Nodup → c ∈ cols →
      ∃ r, R c r ∧
        dict_get c.name (res.map (fun p => (p.1.name, p.2))) = some r.2 ∧
        (res.map Prod.fst).find? (fun col => decide (col.name = c.name)) = some r.1 := by
  intro cols res h2
  induction h2 with
  | nil => intro _ hc; exact absurd hc (by simp)
  | @cons a b la lb hR htail ih =>
    intro hnd hc
    by_cases hceq : c = a
    · subst hceq
      have hbn : b.1.name = c.name := hname c b hR
      refine ⟨b, hR, ?_, ?_⟩
      · simp [dict_get, hbn]
      · simp [List.find?, hbn]
    · have hcl : c ∈ la := by
        rcases List.mem_cons.mp hc with h | h
        · exact absurd h hceq
        · exact h
      have hne : c.name ≠ a.name := by
        intro heq
        have h1 : a.name ∈ la.map Column.name := heq ▸ List.mem_map_of_mem Column.name hcl
        exact (List.nodup_cons.mp hnd).1 h1
      obtain ⟨r, hr, hdg, hfd⟩ := ih (List.nodup_cons.mp hnd).2 hcl
      have hbn : b.1.name = a.name := hname a b hR
      refine ⟨r, hr, ?_, ?_⟩
      · simpa [dict_get, hbn, hne] using hdg
      · rw [List.map_cons, List.find?_cons_of_neg, hfd]
        exact fun hcontra => hne (hbn.symm.trans (of_decide_eq_true hcontra)).symm

/-- Decompose a successful `knockout` run into its validation and loop
stages. -/
theorem knockout_ok_elim {rng : Nat → Nat → List Nat} {df : DataFrame}
    {ms : MissingSpec} {na : NaSpec} {ex : ExcludeSpec} {masked : DataFrame}
    {mask : List (String × List Bool)}
    (hok : knockout rng df ms na ex = .ok (masked, mask)) :
    ∃ pcts res, validate_missing df ms = .ok pcts ∧
      knock_cols rng (n_rows df) (exclude_set ex) pcts na df.cols = .ok res ∧
      masked = ⟨res.map Prod.fst⟩ ∧ mask = res.map (fun r => (r.1.name, r.2)) := by
  unfold knockout at hok
  cases hv : validate_missing df ms with
  | error e => rw [hv] at hok; cases hok
  | ok pcts =>
    rw [hv] at hok
    dsimp only at hok
    cases hk : knock_cols rng (n_rows df) (exclude_set ex) pcts na df.cols with
    | error e => rw [hk] at hok; cases hok
    | ok res =>
      rw [hk] at hok
      dsimp only at hok
      simp only [Except.ok.injEq, Prod.mk.injEq] at hok
      exact ⟨pcts, res, rfl, hk, hok.1.symm, hok.2.symm⟩

/-- Validation failures propagate: the call returns the validation error and
produces no output pair. -/
theorem knockout_error_of_validate {rng : Nat → Nat → List Nat} {df : DataFrame}
    {ms : MissingSpec} {na : NaSpec} {ex : ExcludeSpec} {e : KErr}
    (h : validate_missing df ms = .error e) : knockout rng df ms na ex = .error e := by
  unfold knockout
  rw [h]

/-- Per-column content of a successful run: the loop iteration for `c`
succeeded and its two outputs are what the returned mask and masked frame
associate with `c.name`. -/
theorem knockout_ok_col {rng : Nat → Nat → List Nat} {df : DataFrame}
    {ms : MissingSpec} {na : NaSpec} {ex : ExcludeSpec} {masked : DataFrame}
    {mask : List (String × List Bool)} {c : Column}
    (hok : knockout rng df ms na ex = .ok (masked, mask))
    (hnd : (df.cols.map Column.name).Nodup) (hc : c ∈ df.cols) :
    ∃ pcts r, validate_missing df ms = .ok pcts ∧
      knock_col rng (n_rows df) (decide (c.name ∈ exclude_set ex)) (pct_for pcts c.name)
        (resolve_na_col na c) c = .ok r ∧
      dict_get c.name mask = some r.2 ∧
      masked.col c.name = some r.1 := by
  obtain ⟨pcts, res, hv, hk, hmasked, hmask⟩ := knockout_ok_elim hok
  have h2 := knock_cols_forall2 hk
  obtain ⟨r, hr, hdg, hfd⟩ :=
    forall2_ok_lookup (fun c' r' h' => (knock_col_shape h').1) h2 hnd hc
  refine ⟨pcts, r, hv, hr, ?_, ?_⟩
  · rw [hmask]; exact hdg
  · rw [hmasked]; exact hfd

/-- If every column's iteration is a no-op, the loop returns the columns
unchanged with all-`False` mask rows. -/
theorem knock_cols_skip_all {rng : Nat → Nat → List Nat} {n : Nat} {ex : List String}
    {pcts : List (String × PyVal)} {na : NaSpec} :
    ∀ {cols : List Column},
      (∀ c ∈ cols, knock_col rng n (decide (c.name ∈ ex)) (pct_for pcts c.name)
        (resolve_na_col na c) c = .ok (c, List.replicate n false)) →
      knock_cols rng n ex pcts na cols
        = .ok (cols.map (fun c => (c, List.replicate n false)))
  | [], _ => rfl
  | c :: rest, h => by
    simp only [knock_cols]
    rw [h c (by simp)]
    dsimp only
    rw [knock_cols_skip_all (fun c' hc' => h c' (by simp [hc']))]
    rfl

/-- Any two non-dict `na_value`s resolve every column's sentinel to the same
default, so the whole loop agrees. -/
theorem knock_cols_na_val {rng : Nat → Nat → List Nat} {n : Nat} {ex : List String}
    {pcts : List (String × PyVal)} (x y : PyVal) :
    ∀ cols : List Column,
      knock_cols rng n ex pcts (.val x) cols = knock_cols rng n ex pcts (.val y) cols
  | [] => rfl
  | c :: rest => by
    simp only [knock_cols]
    have hna : resolve_na_col (.val x) c = resolve_na_col (.val y) c := rfl
    rw [hna, knock_cols_na_val x y rest]

/-- A non-dict `na_value` is interchangeable with `None` for the whole call. -/
theorem knockout_na_val {rng : Nat → Nat → List Nat} {df : DataFrame}
    {ms : MissingSpec} {ex : ExcludeSpec} (x y : PyVal) :
    knockout rng df ms (.val x) ex = knockout rng df ms (.val y) ex := by
  unfold knockout
  cases validate_missing df ms with
  | error e => rfl
  | ok pcts =>
    dsimp only
    rw [knock_cols_na_val x y df.cols]

/-- A mapping value that is numeric (int or float, NaN included) or absent. -/
def numeric_or_absent (v : PyVal) : Bool :=
  match v with
  | .none => true
  | .int _ => true
  | .float _ => true
  | .str _ => false

/-- A numeric mapping value lying in [0,1] (NaN does not). -/
def numeric_rate_in_range (v : PyVal) : Bool :=
  match v with
  | .int i => decide (0 ≤ i) && decide (i ≤ 1)
  | .float f => is_pct f
  | _ => false

theorem resolve_entry_numeric_bad {v : PyVal} (hnum : numeric_or_absent v = true)
    (hnn : v ≠ PyVal.none) (hbad : numeric_rate_in_range v = false) :
    resolve_entry v
      = .error (.invalidArgument (r"missing_pct must be in range [0,1] if numeric.")) := by
  cases v with
  | none => exact absurd rfl hnn
  | str s => cases hnum
  | int i =>
    have heq : resolve_entry (.int i)
        = (if is_pct (.val ⟨i, 1⟩) then .ok (.float (.val ⟨i, 1⟩))
           else .error (.invalidArgument
             (r"missing_pct must be in range [0,1] if numeric."))) := rfl
    have hval : is_pct (.val ⟨i, 1⟩) = (decide (0 ≤ i) && decide (i ≤ 1)) := by
      simp [is_pct, pyq_le]
    simp only [numeric_rate_in_range] at hbad
    rw [heq, hval, hbad]
    rfl
  | float f =>
    have heq : resolve_entry (.float f)
        = (if is_pct f then .ok (.float f)
           else .error (.invalidArgument
             (r"missing_pct must be in range [0,1] if numeric."))) := rfl
    simp only [numeric_rate_in_range] at hbad
    rw [heq, hbad]
    rfl

theorem resolve_entry_numeric {v : PyVal} (hnum : numeric_or_absent v = true) :
    (∃ v', resolve_entry v = .ok v')
    ∨ resolve_entry v
        = .error (.invalidArgument (r"missing_pct must be in range [0,1] if numeric.")) := by
  cases v with
  | none => exact Or.inl ⟨_, rfl⟩
  | str s => cases hnum
  | int i =>
    have heq : resolve_entry (.int i)
        = (if is_pct (.val ⟨i, 1⟩) then .ok (.float (.val ⟨i, 1⟩))
           else .error (.invalidArgument
             (r"missing_pct must be in range [0,1] if numeric."))) := rfl
    cases hp : is_pct (.val ⟨i, 1⟩) with
    | true => exact Or.inl ⟨_, by rw [heq, hp]; rfl⟩
    | false => exact Or.inr (by rw [heq, hp]; rfl)
  | float f =>
    have heq : resolve_entry (.float f)
        = (if is_pct f then .ok (.float f)
           else .error (.invalidArgument
             (r"missing_pct must be in range [0,1] if numeric."))) := rfl
    cases hp : is_pct f with
    | true => exact Or.inl ⟨_, by rw [heq, hp]; rfl⟩
    | false => exact Or.inr (by rw [heq, hp]; rfl)

/-- In a mapping whose values are all numeric-or-absent, a present numeric
value outside [0,1] makes the dict validation fail with the assertion's
message. -/
theorem resolve_dict_numeric_bad :
    ∀ {m : List (String × PyVal)} {cv : String × PyVal},
      (∀ p ∈ m, numeric_or_absent p.2 = true) → cv ∈ m →
      cv.2 ≠ PyVal.none → numeric_rate_in_range cv.2 = false →
      resolve_dict m
        = .error (.invalidArgument (r"missing_pct must be in range [0,1] if numeric.")) := by
  intro m
  induction m with
  | nil => intro cv _ hmem; cases hmem
  | cons p rest ih =>
    intro cv hall hmem hnn hbad
    obtain ⟨c₀, v₀⟩ := p
    simp only [resolve_dict]
    rcases List.mem_cons.mp hmem with heq | htail
    · subst heq
      rw [resolve_entry_numeric_bad (v := v₀) (hall (c₀, v₀) (by simp)) hnn hbad]
    · rcases resolve_entry_numeric (hall (c₀, v₀) (by simp)) with ⟨v', hv'⟩ | hbad₀
      · rw [hv']
        dsimp only
        rw [ih (fun p hp => hall p (by simp [hp])) htail hnn hbad]
      · rw [hbad₀]

/-! ### Concrete frames used by witnesses and counterexamples -/

/-- Integer column `a = [1,2,3,4,5]` (the spec's §8 concrete scenario). -/
def dfInt5 : DataFrame :=
  ⟨[⟨r"a", r"int64", [.int 1, .int 2, .int 3, .int 4, .int 5]⟩]⟩

/-- Integer column `a = [1,2,3]`. -/
def dfInt3 : DataFrame :=
  ⟨[⟨r"a", r"int64", [.int 1, .int 2, .int 3]⟩]⟩

/-- Floating column `a = [1.0, 2.0]`. -/
def dfFloatA : DataFrame :=
  ⟨[⟨r"a", r"float64", [.float (.val ⟨1, 1⟩), .float (.val ⟨2, 1⟩)]⟩]⟩

/-- Floating column `x = [10.0, 20.0]`. -/
def dfFloatX : DataFrame :=
  ⟨[⟨r"x", r"float64", [.float (.val ⟨10, 1⟩), .float (.val ⟨20, 1⟩)]⟩]⟩

/-- Two integer columns `a = [1,2]`, `b = [3,4]`. -/
def dfAB : DataFrame :=
  ⟨[⟨r"a", r"int64", [.int 1, .int 2]⟩, ⟨r"b", r"int64", [.int 3, .int 4]⟩]⟩

/-! ### Claims -/

/-- C1: for every table, a non-excluded column with an effective (non-`None`)
missing rate `p` gets exactly `round(n*p)` mask cells set `True` (the sampled
indices are distinct because the sampler draws without replacement, `ValidRng`),
and an excluded or rate-absent column gets zero. -/
theorem knockout_mask_count
    (rng : Nat → Nat → List Nat) (df : DataFrame) (ms : MissingSpec) (na : NaSpec)
    (ex : ExcludeSpec) (masked : DataFrame) (mask : List (String × List Bool))
    (pcts : List (String × PyVal)) (c : Column) (mcol : List Bool) (q : PyQ)
    (hrng : ValidRng rng)
    (hnd : (df.cols.map Column.name).Nodup)
    (hok : knockout rng df ms na ex = .ok (masked, mask))
    (hpcts : validate_missing df ms = .ok pcts)
    (hc : c ∈ df.cols)
    (hm : dict_get c.name mask = some mcol) :
    (c.name ∉ exclude_set ex → pct_for pcts c.name = .float (.val q) →
      mcol.count true = (roundHalfEven (natMul (n_rows df) q)).toNat)
    ∧ (c.name ∈ exclude_set ex → mcol.count true = 0)
    ∧ (pct_for pcts c.name = PyVal.none → mcol.count true = 0) := by
  obtain ⟨pcts', r, hv, hkc, hdg, hfd⟩ := knockout_ok_col hok hnd hc
  have hpe : pcts' = pcts := by
    rw [hpcts] at hv
    cases hv
    rfl
  subst hpe
  have hrm : r.2 = mcol := by
    rw [hm] at hdg
    cases hdg
    rfl
  refine ⟨?_, ?_, ?_⟩
  · intro hex hq
    rw [← hrm]
    exact knock_col_count hrng hkc (decide_eq_false hex) hq
  · intro hex
    rw [decide_eq_true hex, knock_col_excluded] at hkc
    cases hkc
    rw [← hrm]
    exact count_true_replicate_false (n_rows df)
  · intro hq
    rw [hq, knock_col_skip] at hkc
    cases hkc
    rw [← hrm]
    exact count_true_replicate_false (n_rows df)

/-- C1 witness: `a = [1,2,3,4,5]`, `missing_pct = {"a": 0.4}` marks exactly
`round(5*0.4) = 2` cells. -/
theorem knockout_mask_count_witness :
    ((r"a") ∉ exclude_set .noneEx →
      pct_for [((r"a"), PyVal.float (.val ⟨2, 5⟩))] (r"a") = PyVal.float (.val ⟨2, 5⟩) →
      ([true, true, false, false, false] : List Bool).count true
        = (roundHalfEven (natMul (n_rows dfInt5) ⟨2, 5⟩)).toNat)
    ∧ ((r"a") ∈ exclude_set .noneEx →
      ([true, true, false, false, false] : List Bool).count true = 0)
    ∧ (pct_for [((r"a"), PyVal.float (.val ⟨2, 5⟩))] (r"a") = PyVal.none →
      ([true, true, false, false, false] : List Bool).count true = 0) :=
  knockout_mask_count pickFirst dfInt5 (.dict [((r"a"), .float (.val ⟨2, 5⟩))])
    (.val .none) .noneEx
    ⟨[⟨r"a", r"int64", [.int (-1), .int (-1), .int 3, .int 4, .int 5]⟩]⟩
    [((r"a"), [true, true, false, false, false])]
    [((r"a"), PyVal.float (.val ⟨2, 5⟩))]
    ⟨r"a", r"int64", [.int 1, .int 2, .int 3, .int 4, .int 5]⟩
    [true, true, false, false, false] ⟨2, 5⟩
    pickFirst_valid (by decide) rfl rfl (by decide) rfl

/-- C2 (code bug): the docstring says `na_value` maps TYPES to sentinels, and
the claim accordingly resolves the sentinel per type category, but the code
looks override keys up among COLUMN NAMES (`if c in na_value`): with override
`{"floating": -999.0}` and rate 1.0 on floating column `a`, every masked cell
holds the default NaN, not the override the claim's resolution produces. -/
theorem sentinel_override_by_name_divergence :
    knockout pickFirst dfFloatA (.val (.float (.val ⟨1, 1⟩)))
        (.dict [((r"floating"), .float (.val ⟨-999, 1⟩))]) .noneEx
      = .ok (⟨[⟨r"a", r"float64", [.float .nan, .float .nan]⟩]⟩,
             [((r"a"), [true, true])])
    ∧ sentinel_per_spec (.dict [((r"floating"), .float (.val ⟨-999, 1⟩))]) (r"float64")
      = .float (.val ⟨-999, 1⟩)
    ∧ PyVal.float .nan ≠ PyVal.float (.val ⟨-999, 1⟩) :=
  ⟨rfl, rfl, by decide⟩

/-- C3 (code bug): the spec's own scenario — `missing_pct = 0.5` on floating
column `x` with `sentinelSpec = {"floating": -999.0}` — produces NaN in the
masked cell, not -999.0, because the code matches override keys against
column names instead of type categories. -/
theorem spec_scenario_override_ignored :
    knockout pickFirst dfFloatX (.val (.float (.val ⟨1, 2⟩)))
        (.dict [((r"floating"), .float (.val ⟨-999, 1⟩))]) .noneEx
      = .ok (⟨[⟨r"x", r"float64", [.float .nan, .float (.val ⟨20, 1⟩)]⟩]⟩,
             [((r"x"), [true, false])])
    ∧ sentinel_per_spec (.dict [((r"floating"), .float (.val ⟨-999, 1⟩))]) (r"float64")
      ≠ PyVal.float .nan :=
  ⟨rfl, by decide⟩

/-- C4 counterexample: a mapping value that is neither absent nor numeric —
the string "oops" — passes validation untouched (no `InvalidArgument`), and
the call then fails with a `TypeError` in the per-column loop. -/
theorem nonnumeric_rate_no_invalid_argument :
    validate_missing dfInt3 (.dict [((r"a"), .str (r"oops"))])
      = .ok [((r"a"), .str (r"oops"))]
    ∧ knockout pickFirst dfInt3 (.dict [((r"a"), .str (r"oops"))]) (.val .none) .noneEx
      = .error .typeError :=
  ⟨rfl, rfl⟩

/-- C4 amended: in a mapping whose present values are numeric or absent, any
numeric value outside [0,1] (NaN included) fails validation with
`InvalidArgument`, and the whole call returns that error; non-numeric values
are NOT checked during validation (see the counterexample). -/
theorem mapping_numeric_rate_checked
    (rng : Nat → Nat → List Nat) (df : DataFrame) (m : List (String × PyVal))
    (na : NaSpec) (ex : ExcludeSpec) (cv : String × PyVal)
    (hall : ∀ p ∈ m, numeric_or_absent p.2 = true)
    (hmem : cv ∈ m) (hnn : cv.2 ≠ PyVal.none)
    (hbad : numeric_rate_in_range cv.2 = false) :
    validate_missing df (.dict m)
      = .error (.invalidArgument (r"missing_pct must be in range [0,1] if numeric."))
    ∧ knockout rng df (.dict m) na ex
      = .error (.invalidArgument (r"missing_pct must be in range [0,1] if numeric.")) := by
  have hv : validate_missing df (.dict m)
      = .error (.invalidArgument (r"missing_pct must be in range [0,1] if numeric.")) := by
    have h0 : validate_missing df (.dict m) = resolve_dict m := rfl
    rw [h0]
    exact resolve_dict_numeric_bad hall hmem hnn hbad
  exact ⟨hv, knockout_error_of_validate hv⟩

/-- C4 amended witness: `{"a": 1.5}` is rejected by validation. -/
theorem mapping_numeric_rate_checked_witness :
    validate_missing dfInt3 (.dict [((r"a"), .float (.val ⟨3, 2⟩))])
      = .error (.invalidArgument (r"missing_pct must be in range [0,1] if numeric."))
    ∧ knockout pickFirst dfInt3 (.dict [((r"a"), .float (.val ⟨3, 2⟩))]) (.val .none) .noneEx
      = .error (.invalidArgument (r"missing_pct must be in range [0,1] if numeric.")) :=
  mapping_numeric_rate_checked pickFirst dfInt3 [((r"a"), .float (.val ⟨3, 2⟩))]
    (.val .none) .noneEx ((r"a"), .float (.val ⟨3, 2⟩))
    (by decide) (by decide) (by decide) (by decide)

/-- C5 counterexample: the invalid configuration `{"a": 0.5, "b": "oops"}`
(the value for `b` is neither absent nor a number) does NOT raise
`InvalidArgument` before the columns are processed: validation accepts it,
column `a` is processed, and the call fails on `b` with a `TypeError`. -/
theorem invalid_config_error_after_loop_start :
    validate_missing dfAB
        (.dict [((r"a"), .float (.val ⟨1, 2⟩)), ((r"b"), .str (r"oops"))])
      = .ok [((r"a"), .float (.val ⟨1, 2⟩)), ((r"b"), .str (r"oops"))]
    ∧ knockout pickFirst dfAB
        (.dict [((r"a"), .float (.val ⟨1, 2⟩)), ((r"b"), .str (r"oops"))])
        (.val .none) .noneEx
      = .error .typeError :=
  ⟨rfl, rfl⟩

/-- C5 amended: every configuration the up-front validation rejects (wrong
shape of `missing_pct`, or a numeric rate outside [0,1]) makes the call
return the validation error itself: the loop never runs and no masked table
or mask is produced.  (A mapping with a non-numeric rate value instead passes
validation and fails later in the loop, see the counterexample.) -/
theorem validation_error_aborts_call
    (rng : Nat → Nat → List Nat) (df : DataFrame) (ms : MissingSpec)
    (na : NaSpec) (ex : ExcludeSpec) (e : KErr)
    (h : validate_missing df ms = .error e) :
    knockout rng df ms na ex = .error e :=
  knockout_error_of_validate h

/-- C5 amended witness: the spec's `missingSpec = 1.5` aborts the call with
the `InvalidArgument` range message. -/
theorem validation_error_aborts_call_witness :
    knockout pickFirst dfInt5 (.val (.float (.val ⟨3, 2⟩))) (.val .none) .noneEx
      = .error (.invalidArgument (r"missing_pct must be in range [0,1] if numeric.")) :=
  validation_error_aborts_call pickFirst dfInt5 (.val (.float (.val ⟨3, 2⟩)))
    (.val .none) .noneEx
    (.invalidArgument (r"missing_pct must be in range [0,1] if numeric.")) rfl

/-- C6: a column in the exclusion set keeps all its mask cells `False` and
appears unchanged in the masked table, whatever `missing_pct` says about it
(exclusion is tested before the rate is even read). -/
theorem excluded_column_untouched
    (rng : Nat → Nat → List Nat) (df : DataFrame) (ms : MissingSpec) (na : NaSpec)
    (ex : ExcludeSpec) (masked : DataFrame) (mask : List (String × List Bool))
    (c : Column)
    (hnd : (df.cols.map Column.name).Nodup)
    (hok : knockout rng df ms na ex = .ok (masked, mask))
    (hc : c ∈ df.cols) (hex : c.name ∈ exclude_set ex) :
    dict_get c.name mask = some (List.replicate (n_rows df) false)
    ∧ masked.col c.name = some c := by
  obtain ⟨pcts, r, hv, hkc, hdg, hfd⟩ := knockout_ok_col hok hnd hc
  rw [decide_eq_true hex, knock_col_excluded] at hkc
  cases hkc
  exact ⟨hdg, hfd⟩

/-- C6 witness: `exclude = "a"` with uniform rate 1.0 leaves `a = [1,2]`
unchanged with an all-`False` mask row, even though the rate names every
column. -/
theorem excluded_column_untouched_witness :
    dict_get (r"a") [((r"a"), [false, false]), ((r"b"), [true, true])]
      = some (List.replicate (n_rows dfAB) false)
    ∧ DataFrame.col
        ⟨[⟨r"a", r"int64", [.int 1, .int 2]⟩, ⟨r"b", r"int64", [.int (-1), .int (-1)]⟩]⟩
        (r"a")
      = some ⟨r"a", r"int64", [.int 1, .int 2]⟩ :=
  excluded_column_untouched pickFirst dfAB (.val (.float (.val ⟨1, 1⟩))) (.val .none)
    (.one (r"a"))
    ⟨[⟨r"a", r"int64", [.int 1, .int 2]⟩, ⟨r"b", r"int64", [.int (-1), .int (-1)]⟩]⟩
    [((r"a"), [false, false]), ((r"b"), [true, true])]
    ⟨r"a", r"int64", [.int 1, .int 2]⟩
    (by decide) rfl (by decide) (by decide)

/-- C8: with a mapping-form `missing_pct`, a column whose name is not a key
of the mapping keeps an all-`False` mask row and appears unchanged in the
masked table. -/
theorem unlisted_column_untouched
    (rng : Nat → Nat → List Nat) (df : DataFrame) (m : List (String × PyVal))
    (na : NaSpec) (ex : ExcludeSpec) (masked : DataFrame)
    (mask : List (String × List Bool)) (c : Column)
    (hnd : (df.cols.map Column.name).Nodup)
    (hok : knockout rng df (.dict m) na ex = .ok (masked, mask))
    (hc : c ∈ df.cols)
    (hnot : dict_get c.name m = Option.none) :
    dict_get c.name mask = some (List.replicate (n_rows df) false)
    ∧ masked.col c.name = some c := by
  obtain ⟨pcts, r, hv, hkc, hdg, hfd⟩ := knockout_ok_col hok hnd hc
  have hres : resolve_dict m = .ok pcts := by
    have h0 : validate_missing df (.dict m) = resolve_dict m := rfl
    rw [h0] at hv
    exact hv
  have hnone : dict_get c.name pcts = Option.none := by
    rw [dict_get_eq_none_iff, resolve_dict_keys hres]
    exact (dict_get_eq_none_iff c.name m).mp hnot
  have hpct : pct_for pcts c.name = PyVal.none := by
    unfold pct_for
    rw [hnone]
  rw [hpct, knock_col_skip] at hkc
  cases hkc
  exact ⟨hdg, hfd⟩

/-- C8 witness: `missing_pct = {"a": 1.0}` leaves unlisted column `b = [3,4]`
unchanged with an all-`False` mask row. -/
theorem unlisted_column_untouched_witness :
    dict_get (r"b") [((r"a"), [true, true]), ((r"b"), [false, false])]
      = some (List.replicate (n_rows dfAB) false)
    ∧ DataFrame.col
        ⟨[⟨r"a", r"int64", [.int (-1), .int (-1)]⟩, ⟨r"b", r"int64", [.int 3, .int 4]⟩]⟩
        (r"b")
      = some ⟨r"b", r"int64", [.int 3, .int 4]⟩ :=
  unlisted_column_untouched pickFirst dfAB [((r"a"), .float (.val ⟨1, 1⟩))]
    (.val .none) .noneEx
    ⟨[⟨r"a", r"int64", [.int (-1), .int (-1)]⟩, ⟨r"b", r"int64", [.int 3, .int 4]⟩]⟩
    [((r"a"), [true, true]), ((r"b"), [false, false])]
    ⟨r"b", r"int64", [.int 3, .int 4]⟩
    (by decide) rfl (by decide) rfl

/-- C9: an absent `missing_pct` and a uniform rate 0 both return the input
table itself with an all-`False` mask; and in any successful run, a column
whose effective rate rounds to `k = 0` knockouts keeps an all-`False` mask
row and is returned unchanged — none of this is an error. -/
theorem rate_zero_noop
    (rng : Nat → Nat → List Nat) (df : DataFrame) (ms : MissingSpec) (na : NaSpec)
    (ex : ExcludeSpec) (masked : DataFrame) (mask : List (String × List Bool))
    (pcts : List (String × PyVal)) (c : Column) (mcol : List Bool) (q : PyQ)
    (hrng : ValidRng rng) (hwf : df.wf)
    (hok : knockout rng df ms na ex = .ok (masked, mask))
    (hpcts : validate_missing df ms = .ok pcts)
    (hc : c ∈ df.cols) (hm : dict_get c.name mask = some mcol)
    (hq : pct_for pcts c.name = .float (.val q))
    (hzero : roundHalfEven (natMul (n_rows df) q) = 0) :
    knockout rng df (.val PyVal.none) na ex = .ok (df, allFalseMask df)
    ∧ knockout rng df (.val (.float (.val ⟨0, 1⟩))) na ex = .ok (df, allFalseMask df)
    ∧ mcol = List.replicate (n_rows df) false
    ∧ masked.col c.name = some c := by
  have hznorm : roundHalfEven (natMul (n_rows df) ⟨0, 1⟩) = 0 := by
    simp [roundHalfEven, natMul]
  refine ⟨?_, ?_, ?_, ?_⟩
  · have hskip : ∀ c' ∈ df.cols,
        knock_col rng (n_rows df) (decide (c'.name ∈ exclude_set ex))
          (pct_for (df.cols.map (fun c₀ => (c₀.name, PyVal.none))) c'.name)
          (resolve_na_col na c') c' = .ok (c', List.replicate (n_rows df) false) := by
      intro c' hc'
      rw [pct_for_map_const PyVal.none c' df.cols hc']
      exact knock_col_skip rng (n_rows df) _ _ c'
    unfold knockout
    rw [show validate_missing df (.val PyVal.none)
      = .ok (df.cols.map (fun c₀ => (c₀.name, PyVal.none))) from rfl]
    dsimp only
    rw [knock_cols_skip_all hskip]
    dsimp only
    simp only [List.map_map, allFalseMask]
    rw [show (Prod.fst ∘ fun c₀ : Column => (c₀, List.replicate (n_rows df) false))
      = @id Column from rfl, List.map_id]
    rfl
  · have hskip : ∀ c' ∈ df.cols,
        knock_col rng (n_rows df) (decide (c'.name ∈ exclude_set ex))
          (pct_for (df.cols.map (fun c₀ => (c₀.name, PyVal.float (.val ⟨0, 1⟩)))) c'.name)
          (resolve_na_col na c') c' = .ok (c', List.replicate (n_rows df) false) := by
      intro c' hc'
      rw [pct_for_map_const (PyVal.float (.val ⟨0, 1⟩)) c' df.cols hc']
      exact knock_col_rate_zero hrng (hwf.1 c' hc') hznorm
    unfold knockout
    rw [show validate_missing df (.val (.float (.val ⟨0, 1⟩)))
      = .ok (df.cols.map (fun c₀ => (c₀.name, PyVal.float (.val ⟨0, 1⟩)))) from rfl]
    dsimp only
    rw [knock_cols_skip_all hskip]
    dsimp only
    simp only [List.map_map, allFalseMask]
    rw [show (Prod.fst ∘ fun c₀ : Column => (c₀, List.replicate (n_rows df) false))
      = @id Column from rfl, List.map_id]
    rfl
  · obtain ⟨pcts', r, hv, hkc, hdg, hfd⟩ := knockout_ok_col hok hwf.2 hc
    have hpe : pcts' = pcts := by
      rw [hpcts] at hv
      cases hv
      rfl
    subst hpe
    rw [hq, knock_col_rate_zero hrng (hwf.1 c hc) hzero] at hkc
    cases hkc
    rw [hm] at hdg
    cases hdg
    rfl
  · obtain ⟨pcts', r, hv, hkc, hdg, hfd⟩ := knockout_ok_col hok hwf.2 hc
    have hpe : pcts' = pcts := by
      rw [hpcts] at hv
      cases hv
      rfl
    subst hpe
    rw [hq, knock_col_rate_zero hrng (hwf.1 c hc) hzero] at hkc
    cases hkc
    exact hfd

/-- C9 witness: `{"a": 0.1}` on 3 rows rounds to 0 knockouts; the call
succeeds, the mask is all `False` and the table is returned unchanged, as are
the absent and rate-0 configurations. -/
theorem rate_zero_noop_witness :
    knockout pickFirst dfInt3 (.val PyVal.none) (.val .none) .noneEx
      = .ok (dfInt3, allFalseMask dfInt3)
    ∧ knockout pickFirst dfInt3 (.val (.float (.val ⟨0, 1⟩))) (.val .none) .noneEx
      = .ok (dfInt3, allFalseMask dfInt3)
    ∧ [false, false, false] = List.replicate (n_rows dfInt3) false
    ∧ DataFrame.col dfInt3 (r"a") = some ⟨r"a", r"int64", [.int 1, .int 2, .int 3]⟩ :=
  rate_zero_noop pickFirst dfInt3 (.dict [((r"a"), .float (.val ⟨1, 10⟩))])
    (.val .none) .noneEx dfInt3 [((r"a"), [false, false, false])]
    [((r"a"), PyVal.float (.val ⟨1, 10⟩))]
    ⟨r"a", r"int64", [.int 1, .int 2, .int 3]⟩
    [false, false, false] ⟨1, 10⟩
    pickFirst_valid (by decide) rfl rfl (by decide) rfl rfl rfl

/-- C10: a non-dict `na_value` (here an arbitrary value `x`, e.g. a bare
scalar) is silently ignored — the call behaves exactly as with `na_value =
None` — and every knocked-out cell holds the per-type default sentinel. -/
theorem na_value_non_dict_defaults
    (rng : Nat → Nat → List Nat) (df : DataFrame) (ms : MissingSpec)
    (ex : ExcludeSpec) (x : PyVal) (masked : DataFrame)
    (mask : List (String × List Bool)) (c c' : Column) (mcol : List Bool) (i : Nat)
    (hwf : df.wf)
    (hok : knockout rng df ms (.val x) ex = .ok (masked, mask))
    (hc : c ∈ df.cols)
    (hcol : masked.col c.name = some c')
    (hm : dict_get c.name mask = some mcol)
    (hi : i < n_rows df)
    (ht : mcol.getD i false = true) :
    knockout rng df ms (.val PyVal.none) ex = .ok (masked, mask)
    ∧ c'.values.getD i PyVal.none = default_na c.dtype := by
  constructor
  · rw [← knockout_na_val x PyVal.none]
    exact hok
  · obtain ⟨pcts, r, hv, hkc, hdg, hfd⟩ := knockout_ok_col hok hwf.2 hc
    have hr1 : r.1 = c' := by
      rw [hcol] at hfd
      cases hfd
      rfl
    have hr2 : r.2 = mcol := by
      rw [hm] at hdg
      cases hdg
      rfl
    have hcell := knock_col_cell hkc (hwf.1 c hc) hi
    rw [hr1, hr2, ht] at hcell
    simp only [if_true] at hcell
    exact hcell

/-- C10 witness: `na_value = 7` (a bare scalar, not a dict) with uniform
rate 0.5 on integer columns: the run equals the `na_value = None` run and the
knocked-out cell of `a` holds the integer default -1. -/
theorem na_value_non_dict_defaults_witness :
    knockout pickFirst dfAB (.val (.float (.val ⟨1, 2⟩))) (.val PyVal.none) .noneEx
      = .ok (⟨[⟨r"a", r"int64", [.int (-1), .int 2]⟩,
               ⟨r"b", r"int64", [.int (-1), .int 4]⟩]⟩,
             [((r"a"), [true, false]), ((r"b"), [true, false])])
    ∧ ([PyVal.int (-1), PyVal.int 2] : List PyVal).getD 0 PyVal.none
      = default_na (r"int64") :=
  na_value_non_dict_defaults pickFirst dfAB (.val (.float (.val ⟨1, 2⟩))) .noneEx
    (.int 7)
    ⟨[⟨r"a", r"int64", [.int (-1), .int 2]⟩, ⟨r"b", r"int64", [.int (-1), .int 4]⟩]⟩
    [((r"a"), [true, false]), ((r"b"), [true, false])]
    ⟨r"a", r"int64", [.int 1, .int 2]⟩
    ⟨r"a", r"int64", [.int (-1), .int 2]⟩
    [true, false] 0
    (by decide) rfl (by decide) rfl rfl (by decide) rfl

end KnockoutModel
